import Mathlib

/-!
Verification of the mobitrak backend hiring core: a shallow embedding of the
job-request state machine, the employment ledger, the identity-store
internal-update route and the rating aggregate, together with theorems
settling the specification claims.

Conventions of the embedding:
  - machine time (JS Date) is a natural number of milliseconds;
  - Mongo object ids are natural numbers;
  - JS numbers that can be fractional (salary amounts, ratings) are rationals;
  - optional / possibly-undefined JS values are Option;
  - a thrown ApiError is returned as a value together with the persisted
    state, so that failed calls expose exactly what was saved before the
    throw (the expiry path of respondToJobRequest saves before throwing).
-/

namespace Mobitrak

/-- Error taxonomy of the errorHandler middleware. -/
inductive ApiError where
  | notFound (resource : String)
  | validation (message : String)
  | forbidden (message : String)
  | conflict (message : String)
deriving DecidableEq, Repr

/-- HTTP status code attached by the errorHandler classes. -/
def ApiError.statusCode : ApiError → Nat
  | .notFound _ => 404
  | .validation _ => 400
  | .forbidden _ => 403
  | .conflict _ => 409

def ApiError.isValidation : ApiError → Bool
  | .validation _ => true
  | _ => false

def ApiError.isForbidden : ApiError → Bool
  | .forbidden _ => true
  | _ => false

/-- JobRequest status enum of the jobRequestSchema. -/
inductive JobStatus where
  | PENDING | VIEWED | ACCEPTED | REJECTED | WITHDRAWN | EXPIRED | HIRED | CANCELLED
deriving DecidableEq, Repr

/-- Employment status enum of the employmentSchema. -/
inductive EmpStatus where
  | ACTIVE | TERMINATED | RESIGNED
deriving DecidableEq, Repr

/-- offeredSalary / Employment.salary subdocument. -/
structure Salary where
  amount : ℚ
  currency : String
  frequency : String
deriving DecidableEq, Repr

/-- jobDetails subdocument of the jobRequestSchema. -/
structure JobDetails where
  serviceType : String
  vehicleType : String
  contractDuration : ℚ
  contractUnit : String
  accommodation : Bool
  healthInsurance : Bool
  description : Option String
deriving DecidableEq, Repr

/-- counterOffer subdocument of driverResponse. -/
structure CounterOffer where
  salary : Option Salary
  startDate : Option Nat
  notes : Option String
deriving DecidableEq, Repr

/-- driverResponse subdocument of the jobRequestSchema. -/
structure DriverResponse where
  respondedAt : Nat
  message : Option String
  dlConsentGiven : Bool
  counterOffer : Option CounterOffer
deriving DecidableEq, Repr

/-- rejection subdocument of the jobRequestSchema. -/
structure Rejection where
  reason : Option String
  details : Option String
  rejectedBy : String
deriving DecidableEq, Repr

/-- One statusHistory entry of the jobRequestSchema. -/
structure StatusHistoryEntry where
  status : JobStatus
  changedBy : Nat
  changedAt : Nat
  reason : Option String
deriving DecidableEq, Repr

/-- The JobRequest document. -/
structure JobRequest where
  id : Nat
  companyId : Nat
  driverId : Nat
  status : JobStatus
  jobDetails : JobDetails
  offeredSalary : Salary
  expiresAt : Nat
  statusHistory : List StatusHistoryEntry
  driverResponse : Option DriverResponse
  rejection : Option Rejection
  resultingEmployment : Option Nat
  viewedAt : Option Nat
  viewCount : Nat
deriving DecidableEq, Repr

/-- termination subdocument of the employmentSchema. The schema block
declares reason, details, initiatedBy and terminatedAt only, so the rating
value the handler assigns is dropped at save and never stored. -/
structure TerminationBlock where
  reason : Option String
  details : Option String
  initiatedBy : String
  terminatedAt : Nat
deriving DecidableEq, Repr

/-- The Employment document, restricted to the paths the employmentSchema
declares. The schema declares no assignmentStatus path, so the stored
document carries none: a strict-mode save drops any assignment to that
name. -/
structure Employment where
  id : Nat
  driverId : Nat
  companyId : Nat
  sourceJobRequest : Option Nat
  serviceType : String
  vehicleType : String
  contractDuration : ℚ
  contractUnit : String
  accommodation : Bool
  healthInsurance : Bool
  description : Option String
  salary : Salary
  status : EmpStatus
  startDate : Nat
  endDate : Option Nat
  termination : Option TerminationBlock
deriving DecidableEq, Repr

/-- User document of the user-service Identity Store, restricted to the
fields the hiring core reads and writes. The assignmentStatus field is the
denormalized copy projected by the GET users route. -/
structure User where
  id : Nat
  email : String
  role : String
  companyName : Option String
  firstName : Option String
  lastName : Option String
  assignmentStatus : Option String
deriving DecidableEq, Repr

/-- Body of the PUT internal-update route, as sent by its callers. -/
structure InternalUpdateBody where
  companyName : Option String
  assignmentStatus : Option String
deriving DecidableEq, Repr

/-- JS truthiness of a possibly-undefined string (undefined, null and the
empty string are falsy). -/
def strTruthy : Option String → Bool
  | none => false
  | some s => !(s = "")

/-! ## JobRequest document methods -/

/-- jobRequestSchema.methods.updateStatus: pushes the previous status onto
statusHistory, assigns the new status, stamps viewedAt on the first VIEWED
transition and increments viewCount. -/
def updateStatus (r : JobRequest) (newStatus : JobStatus) (changedBy : Nat)
    (now : Nat) (reason : String) : JobRequest :=
  { r with
    statusHistory := r.statusHistory ++
      [{ status := r.status, changedBy := changedBy, changedAt := now,
         reason := some reason }]
    status := newStatus
    viewedAt :=
      if newStatus = JobStatus.VIEWED ∧ r.viewedAt = none then some now
      else r.viewedAt
    viewCount := r.viewCount + 1 }

/-- jobRequestSchema.methods.canBeModified. -/
def canBeModified (r : JobRequest) : Bool :=
  r.status = JobStatus.PENDING ∨ r.status = JobStatus.VIEWED

/-- jobRequestSchema.methods.isExpired, at an explicit current time. -/
def isExpired (now : Nat) (r : JobRequest) : Bool :=
  r.expiresAt < now ∨ r.status = JobStatus.EXPIRED

/-! ## respondToJobRequest -/

/-- Driver response action of the respond route body. -/
inductive RespondAction where
  | accept | reject | counter
deriving DecidableEq, Repr

/-- rejection payload of the respond route body. -/
structure RejectionInput where
  reason : Option String
  details : Option String
deriving DecidableEq, Repr

/-- Body of the respond route. dlConsentGiven is optional because the JS
handler compares it to true with strict equality. -/
structure RespondBody where
  action : RespondAction
  message : Option String
  counterOffer : Option CounterOffer
  rejection : Option RejectionInput
  dlConsentGiven : Option Bool
deriving DecidableEq, Repr

/-- Persisted effect of one respondToJobRequest call: the error thrown (if
any), the saved state of the request, the employment document created (if
any), and the identity-store internal-update call issued (if any), as a pair
of the target user id and the request body. -/
structure RespondEffect where
  error : Option ApiError
  request : JobRequest
  employment : Option Employment
  identityUpdate : Option (Nat × InternalUpdateBody)
deriving DecidableEq, Repr

/-- The reason string interpolated by the handler for updateStatus. -/
def respondReason : RespondAction → String
  | .accept => "Driver accepted"
  | .reject => "Driver rejected"
  | .counter => "Driver countered"

/-- respondToJobRequest of the job request controller. Arguments: current
time, the authenticated driver user id, the request body, the JobRequest
document found by id, the company user fetched from the Identity Store (none
when the fetch fails), and the id the store assigns to a new employment. -/
def respondToJobRequest (now userId : Nat) (body : RespondBody)
    (jobRequest : JobRequest) (companyUser : Option User) (newEmpId : Nat) :
    RespondEffect :=
  if jobRequest.driverId ≠ userId then
    { error := some (ApiError.forbidden "This job request is not for you")
      request := jobRequest, employment := none, identityUpdate := none }
  else if ¬ canBeModified jobRequest then
    { error := some (ApiError.validation "This job request cannot be modified")
      request := jobRequest, employment := none, identityUpdate := none }
  else if isExpired now jobRequest then
    { error := some (ApiError.validation "This job request has expired")
      request := { jobRequest with status := JobStatus.EXPIRED }
      employment := none, identityUpdate := none }
  else
    match body.action with
    | RespondAction.accept =>
      if body.dlConsentGiven ≠ some true then
        { error := some (ApiError.validation
            "You must consent to sharing your driving license to accept this offer")
          request := jobRequest, employment := none, identityUpdate := none }
      else
        let employment : Employment :=
          { id := newEmpId
            driverId := userId
            companyId := jobRequest.companyId
            sourceJobRequest := some jobRequest.id
            serviceType := jobRequest.jobDetails.serviceType
            vehicleType := jobRequest.jobDetails.vehicleType
            contractDuration := jobRequest.jobDetails.contractDuration
            contractUnit := jobRequest.jobDetails.contractUnit
            accommodation := jobRequest.jobDetails.accommodation
            healthInsurance := jobRequest.jobDetails.healthInsurance
            description := jobRequest.jobDetails.description
            salary :=
              { amount := jobRequest.offeredSalary.amount
                currency := jobRequest.offeredSalary.currency
                frequency := jobRequest.offeredSalary.frequency }
            status := EmpStatus.ACTIVE
            startDate := now
            endDate := none
            termination := none }
        let identityUpdate :=
          match companyUser with
          | some cu =>
            if strTruthy cu.companyName then
              some (userId,
                ({ companyName := cu.companyName
                   assignmentStatus := some "UNASSIGNED" } : InternalUpdateBody))
            else none
          | none => none
        let r1 :=
          { jobRequest with
            driverResponse := some
              { respondedAt := now, message := body.message
                dlConsentGiven := true, counterOffer := none }
            resultingEmployment := some newEmpId }
        { error := none
          request := updateStatus r1 JobStatus.HIRED userId now
            (respondReason RespondAction.accept)
          employment := some employment
          identityUpdate := identityUpdate }
    | RespondAction.reject =>
      let r1 :=
        { jobRequest with
          driverResponse := some
            { respondedAt := now, message := body.message
              dlConsentGiven := false, counterOffer := none }
          rejection := some
            { reason := (body.rejection.map RejectionInput.reason).join
              details := (body.rejection.map RejectionInput.details).join
              rejectedBy := "DRIVER" } }
      { error := none
        request := updateStatus r1 JobStatus.REJECTED userId now
          (respondReason RespondAction.reject)
        employment := none, identityUpdate := none }
    | RespondAction.counter =>
      match body.counterOffer with
      | none =>
        { error := some (ApiError.validation "Counter offer details required")
          request := jobRequest, employment := none, identityUpdate := none }
      | some co =>
        let r1 :=
          { jobRequest with
            driverResponse := some
              { respondedAt := now, message := body.message
                dlConsentGiven := false, counterOffer := some co } }
        { error := none
          request := updateStatus r1 JobStatus.VIEWED userId now
            (respondReason RespondAction.counter)
          employment := none, identityUpdate := none }

/-- Persisting the employment side effect of a respond call into the
employments collection. -/
def saveRespondEmployment (es : List Employment) (eff : RespondEffect) :
    List Employment :=
  match eff.employment with
  | some e => es ++ [e]
  | none => es

/-! ## withdrawJobRequest -/

/-- Persisted effect of one withdrawJobRequest call. -/
structure WithdrawEffect where
  error : Option ApiError
  request : JobRequest
deriving DecidableEq, Repr

/-- withdrawJobRequest of the job request controller. -/
def withdrawJobRequest (now companyId : Nat) (reason : Option String)
    (jobRequest : JobRequest) : WithdrawEffect :=
  if jobRequest.companyId ≠ companyId then
    { error := some (ApiError.forbidden "This job request does not belong to you")
      request := jobRequest }
  else if ¬ (jobRequest.status = JobStatus.PENDING ∨
             jobRequest.status = JobStatus.VIEWED) then
    { error := some (ApiError.validation "This job request cannot be withdrawn")
      request := jobRequest }
  else
    { error := none
      request := updateStatus jobRequest JobStatus.WITHDRAWN companyId now
        (reason.getD "Withdrawn by company") }

/-! ## createJobRequest -/

/-- The findOne query of createJobRequest: an existing request of the same
company for the same driver with status PENDING or VIEWED. -/
def hasPendingRequestFrom (companyId driverId : Nat)
    (requests : List JobRequest) : Bool :=
  requests.any (fun r =>
    r.companyId = companyId ∧ r.driverId = driverId ∧
    (r.status = JobStatus.PENDING ∨ r.status = JobStatus.VIEWED))

/-- createJobRequest of the job request controller. Arguments: current time,
the authenticated company user id, the body fields, the driver user fetched
from the Identity Store (none when missing), the current job request
collection, and the id the store assigns to the new request. The schema
default for expiresAt is creation time plus 30 days. -/
def createJobRequest (now companyId driverId : Nat) (jobDetails : JobDetails)
    (offeredSalary : Salary) (expiresAt : Option Nat)
    (driverUser : Option User) (requests : List JobRequest) (newId : Nat) :
    Except ApiError JobRequest :=
  match driverUser with
  | none => Except.error (ApiError.notFound "Driver")
  | some du =>
    if du.role ≠ "driver" then
      Except.error (ApiError.validation "User is not a driver")
    else if strTruthy du.companyName ∧ du.companyName ≠ some "Unemployed" then
      Except.error (ApiError.validation "Driver is currently employed")
    else if hasPendingRequestFrom companyId driverId requests then
      Except.error (ApiError.conflict
        "A pending job request already exists for this driver")
    else
      Except.ok
        { id := newId
          companyId := companyId
          driverId := driverId
          status := JobStatus.PENDING
          jobDetails := jobDetails
          offeredSalary := offeredSalary
          expiresAt := expiresAt.getD (now + 30 * 24 * 60 * 60 * 1000)
          statusHistory :=
            [{ status := JobStatus.PENDING, changedBy := companyId
               changedAt := now, reason := none }]
          driverResponse := none
          rejection := none
          resultingEmployment := none
          viewedAt := none
          viewCount := 0 }

/-! ## Employment ledger: assignment status and termination -/

/-- Mongo findOne filter of updateDriverAssignmentStatus: the single ACTIVE
employment of the driver. -/
def isActiveEmploymentOf (driverId : Nat) (e : Employment) : Bool :=
  e.driverId = driverId ∧ e.status = EmpStatus.ACTIVE

/-- findOne on the employments collection. -/
def findActiveEmployment (driverId : Nat) (es : List Employment) :
    Option Employment :=
  es.find? (isActiveEmploymentOf driverId)

/-- Saving a modified document back into the collection: the first document
matched by the findOne filter is replaced, every other document is kept. -/
def saveReplacingFirst (p : Employment → Bool) (e' : Employment) :
    List Employment → List Employment
  | [] => []
  | e :: es => if p e then e' :: es else e :: saveReplacingFirst p e' es

/-- Effect of one updateDriverAssignmentStatus call: the error thrown (if
any), the persisted employments collection after the save, and the
assignmentStatus value echoed in the success response body (the in-memory
JS property the handler assigned). -/
structure AssignEffect where
  error : Option ApiError
  employments : List Employment
  responseAssignmentStatus : Option String
deriving DecidableEq, Repr

/-- updateDriverAssignmentStatus of the employment controller. The handler
assigns employment.assignmentStatus and saves, but the employmentSchema
declares no assignmentStatus path, so the strict-mode save writes the
document unchanged: only the response body carries the requested value. -/
def updateDriverAssignmentStatus (driverId : Nat) (assignmentStatus : String)
    (es : List Employment) : AssignEffect :=
  if ¬ (assignmentStatus = "UNASSIGNED" ∨ assignmentStatus = "ASSIGNED") then
    { error := some (ApiError.validation
        "Invalid assignment status. Must be UNASSIGNED or ASSIGNED")
      employments := es, responseAssignmentStatus := none }
  else
    match findActiveEmployment driverId es with
    | none =>
      { error := some (ApiError.notFound "Active employment record for driver")
        employments := es, responseAssignmentStatus := none }
    | some e =>
      { error := none
        employments := saveReplacingFirst (isActiveEmploymentOf driverId) e es
        responseAssignmentStatus := some assignmentStatus }

/-- Persisted effect of one terminateEmployment call: the error thrown (if
any), the saved employment, and the identity-store internal-update call
issued (target user id and request body), if any. -/
structure TerminateEffect where
  error : Option ApiError
  employment : Employment
  identityUpdate : Option (Nat × InternalUpdateBody)
deriving DecidableEq, Repr

/-- terminateEmployment of the employment controller, applied to the
employment document found by id. The body rating value the handler assigns
into the termination block is not a schema path of the block and is dropped
at save, so the persisted termination block does not include it. -/
def terminateEmployment (now companyId : Nat)
    (reason details : Option String) (rating : Option ℚ)
    (employment : Employment) : TerminateEffect :=
  if employment.companyId ≠ companyId then
    { error := some (ApiError.forbidden "Access denied")
      employment := employment, identityUpdate := none }
  else if ¬ (employment.status = EmpStatus.ACTIVE) then
    { error := some (ApiError.validation "Employment is already terminated")
      employment := employment, identityUpdate := none }
  else
    { error := none
      employment :=
        { employment with
          status := EmpStatus.TERMINATED
          endDate := some now
          termination := some
            { reason := reason, details := details
              initiatedBy := "COMPANY", terminatedAt := now } }
      identityUpdate := some (employment.driverId,
        ({ companyName := some "Unemployed", assignmentStatus := none } :
          InternalUpdateBody)) }

/-! ## Identity Store internal-update route -/

/-- Body application of the PUT internal-update route of the user-service
admin router: the handler destructures only companyName from the body and
assigns it when it is not undefined. -/
def internalUpdateUser (body : InternalUpdateBody) (user : User) : User :=
  match body.companyName with
  | some c => { user with companyName := some c }
  | none => user

/-- The whole route: 404 when the user id resolves to no user, otherwise the
updated user document is saved and returned. -/
def internalUpdateRoute (body : InternalUpdateBody) (user : Option User) :
    Except (Nat × String) User :=
  match user with
  | none => Except.error (404, "User not found")
  | some u => Except.ok (internalUpdateUser body u)

/-! ## Rating ledger: aggregate computation -/

/-- categoryRatings subdocument of the driverRatingSchema, each category
optional. -/
structure CategoryRatings where
  safety : Option ℚ
  punctuality : Option ℚ
  professionalism : Option ℚ
  vehicleCare : Option ℚ
  communication : Option ℚ
deriving DecidableEq, Repr

/-- DriverRating document, restricted to the fields the aggregate reads. -/
structure DriverRating where
  driverId : Nat
  isApproved : Bool
  overallRating : ℚ
  categoryRatings : CategoryRatings
deriving DecidableEq, Repr

/-- JS Math.round: the floor of the argument plus one half. -/
def jsRound (q : ℚ) : ℤ := ⌊q + 1 / 2⌋

/-- The rounding pattern Math.round(x * 10) / 10 of the aggregate. -/
def round1 (q : ℚ) : ℚ := (jsRound (q * 10) : ℚ) / 10

/-- Arithmetic mean of a list of rationals (the avg accumulator over a
non-empty group). -/
def listAvg (l : List ℚ) : ℚ := l.sum / l.length

/-- Mongo avg accumulator: ignores missing values and yields null when no
value is present. -/
def mongoAvg (l : List ℚ) : Option ℚ :=
  if l.isEmpty then none else some (listAvg l)

/-- breakdown subdocument of the returned aggregate. -/
structure RatingBreakdown where
  safety : ℚ
  punctuality : ℚ
  professionalism : ℚ
  vehicleCare : ℚ
  communication : ℚ
deriving DecidableEq, Repr

/-- Return value of calculateAggregateRatings. -/
structure RatingAggregate where
  averageRating : ℚ
  totalRatings : Nat
  breakdown : RatingBreakdown
deriving DecidableEq, Repr

/-- The match stage of the aggregation pipeline. -/
def approvedRatingsFor (driverId : Nat) (rs : List DriverRating) :
    List DriverRating :=
  rs.filter (fun r => r.driverId = driverId ∧ r.isApproved)

/-- One post-processed breakdown field: Math.round((avg or 0) * 10) / 10. -/
def breakdownField (matched : List DriverRating)
    (category : DriverRating → Option ℚ) : ℚ :=
  round1 ((mongoAvg (matched.filterMap category)).getD 0)

/-- driverRatingSchema.statics.calculateAggregateRatings over the ratings
collection: the pipeline matches approved ratings of the driver, groups them
into averages, and the handler rounds each average to one decimal, yielding
the all-zero aggregate when the group is empty. -/
def calculateAggregateRatings (driverId : Nat) (rs : List DriverRating) :
    RatingAggregate :=
  let matched := approvedRatingsFor driverId rs
  if matched.isEmpty then
    { averageRating := 0, totalRatings := 0
      breakdown :=
        { safety := 0, punctuality := 0, professionalism := 0
          vehicleCare := 0, communication := 0 } }
  else
    { averageRating := round1 (listAvg (matched.map DriverRating.overallRating))
      totalRatings := matched.length
      breakdown :=
        { safety := breakdownField matched (fun r => r.categoryRatings.safety)
          punctuality :=
            breakdownField matched (fun r => r.categoryRatings.punctuality)
          professionalism :=
            breakdownField matched (fun r => r.categoryRatings.professionalism)
          vehicleCare :=
            breakdownField matched (fun r => r.categoryRatings.vehicleCare)
          communication :=
            breakdownField matched (fun r => r.categoryRatings.communication) } }

/-! ## Concrete sample data, used to evaluate the theorems on closed inputs -/

/-- Sample job details of the full hire flow scenario. -/
def sampleDetails : JobDetails :=
  { serviceType := "Commercial", vehicleType := "Truck"
    contractDuration := 6, contractUnit := "Month(s)"
    accommodation := false, healthInsurance := false, description := none }

/-- Sample offered salary of the full hire flow scenario. -/
def sampleSalary : Salary :=
  { amount := 20000, currency := "INR", frequency := "PER_MONTH" }

/-- Sample pending job request. -/
def sampleRequest : JobRequest :=
  { id := 1, companyId := 10, driverId := 20
    status := JobStatus.PENDING
    jobDetails := sampleDetails, offeredSalary := sampleSalary
    expiresAt := 1000
    statusHistory :=
      [{ status := JobStatus.PENDING, changedBy := 10, changedAt := 0
         reason := none }]
    driverResponse := none, rejection := none
    resultingEmployment := none, viewedAt := none, viewCount := 0 }

/-- Sample company user as fetched from the Identity Store. -/
def sampleCompany : User :=
  { id := 10, email := "fleet@acme.example", role := "fleetmanager"
    companyName := some "Acme Fleet", firstName := none, lastName := none
    assignmentStatus := none }

/-- Sample driver user as fetched from the Identity Store. -/
def sampleDriver : User :=
  { id := 20, email := "driver@x.example", role := "driver"
    companyName := some "Unemployed", firstName := some "Dev"
    lastName := some "Driver", assignmentStatus := some "UNASSIGNED" }

/-- Sample accept body with consent given. -/
def sampleAcceptBody : RespondBody :=
  { action := RespondAction.accept, message := none, counterOffer := none
    rejection := none, dlConsentGiven := some true }

/-- Sample accept body without consent. -/
def sampleNoConsentBody : RespondBody :=
  { action := RespondAction.accept, message := none, counterOffer := none
    rejection := none, dlConsentGiven := none }

/-- Sample internal-update body carrying both denormalized fields. -/
def sampleUpdateBody : InternalUpdateBody :=
  { companyName := some "Beta Fleet", assignmentStatus := some "ASSIGNED" }

/-- Sample active employment. -/
def sampleEmployment : Employment :=
  { id := 7, driverId := 20, companyId := 10, sourceJobRequest := some 1
    serviceType := "Commercial", vehicleType := "Truck"
    contractDuration := 6, contractUnit := "Month(s)"
    accommodation := false, healthInsurance := false, description := none
    salary := sampleSalary, status := EmpStatus.ACTIVE
    startDate := 500, endDate := none
    termination := none }

/-- Sample approved ratings 5, 4 and 3 for the sample driver. -/
def sampleRatings : List DriverRating :=
  [ { driverId := 20, isApproved := true, overallRating := 5
      categoryRatings :=
        { safety := some 5, punctuality := none, professionalism := none
          vehicleCare := none, communication := none } }
  , { driverId := 20, isApproved := true, overallRating := 4
      categoryRatings :=
        { safety := some 4, punctuality := none, professionalism := none
          vehicleCare := none, communication := none } }
  , { driverId := 20, isApproved := true, overallRating := 3
      categoryRatings :=
        { safety := some 3, punctuality := none, professionalism := none
          vehicleCare := none, communication := none } } ]

/-! ## Helper lemmas on the collection model -/

lemma saveReplacingFirst_found (p : Employment → Bool) :
    ∀ (l : List Employment) (e : Employment), l.find? p = some e →
      saveReplacingFirst p e l = l := by
  intro l
  induction l with
  | nil => intro e h; simp [List.find?] at h
  | cons x xs ih =>
    intro e h
    by_cases hx : p x = true
    · rw [List.find?_cons_of_pos _ hx] at h
      cases h
      simp [saveReplacingFirst, hx]
    · rw [List.find?_cons_of_neg _ (by simp [hx])] at h
      have hs : saveReplacingFirst p e (x :: xs) =
          x :: saveReplacingFirst p e xs := by
        simp [saveReplacingFirst, hx]
      rw [hs, ih e h]

/-- The rounding pattern of the aggregate yields a multiple of one tenth at
distance at most one twentieth from its argument. -/
lemma round1_near (q : ℚ) :
    (∃ k : ℤ, round1 q = k / 10) ∧ |round1 q - q| ≤ 1 / 20 := by
  refine ⟨⟨jsRound (q * 10), rfl⟩, ?_⟩
  have h1 : ((⌊q * 10 + 1 / 2⌋ : ℤ) : ℚ) ≤ q * 10 + 1 / 2 := Int.floor_le _
  have h2 : q * 10 + 1 / 2 < ((⌊q * 10 + 1 / 2⌋ : ℤ) : ℚ) + 1 :=
    Int.lt_floor_add_one _
  rw [abs_le]
  unfold round1 jsRound
  constructor <;> [linarith; linarith]

/-- A breakdown field over a category with no values is zero. -/
lemma breakdownField_empty (matched : List DriverRating)
    (category : DriverRating → Option ℚ)
    (h : matched.filterMap category = []) :
    breakdownField matched category = 0 := by
  unfold breakdownField mongoAvg
  rw [h]
  norm_num [round1, jsRound]

/-- A breakdown field over a category with values is the rounded mean of the
present values. -/
lemma breakdownField_near (matched : List DriverRating)
    (category : DriverRating → Option ℚ)
    (h : matched.filterMap category ≠ []) :
    (∃ k : ℤ, breakdownField matched category = k / 10) ∧
    |breakdownField matched category -
      listAvg (matched.filterMap category)| ≤ 1 / 20 := by
  have hne : (matched.filterMap category).isEmpty = false := by
    cases hl : matched.filterMap category with
    | nil => exact absurd hl h
    | cons a l => rfl
  unfold breakdownField mongoAvg
  rw [hne]
  exact round1_near _

/-! ## Claim theorems -/

/-- C1. For every job request whose status is PENDING or VIEWED and whose
expiresAt has not passed, respondToJobRequest called by the request driver
with action accept and dlConsentGiven true succeeds, creates exactly one new
Employment whose driverId, companyId, serviceType, vehicleType,
contractDuration, contractUnit and salary fields are copied verbatim from
the request jobDetails and offeredSalary, with status ACTIVE and startDate
now, sets resultingEmployment to that employment id, and moves the request
status directly to HIRED, the single appended history entry carrying the
pre-transition status rather than an intermediate ACCEPTED state. -/
theorem respond_accept_creates_employment_and_hires
    (now userId newEmpId : Nat) (body : RespondBody) (r : JobRequest)
    (companyUser : Option User)
    (hdrv : r.driverId = userId)
    (hst : r.status = JobStatus.PENDING ∨ r.status = JobStatus.VIEWED)
    (hexp : ¬ r.expiresAt < now)
    (hact : body.action = RespondAction.accept)
    (hconsent : body.dlConsentGiven = some true) :
    let eff := respondToJobRequest now userId body r companyUser newEmpId
    eff.error = none ∧
    (∃ e, eff.employment = some e ∧
      e.driverId = r.driverId ∧ e.companyId = r.companyId ∧
      e.serviceType = r.jobDetails.serviceType ∧
      e.vehicleType = r.jobDetails.vehicleType ∧
      e.contractDuration = r.jobDetails.contractDuration ∧
      e.contractUnit = r.jobDetails.contractUnit ∧
      e.salary.amount = r.offeredSalary.amount ∧
      e.salary.currency = r.offeredSalary.currency ∧
      e.salary.frequency = r.offeredSalary.frequency ∧
      e.status = EmpStatus.ACTIVE ∧ e.startDate = now ∧
      eff.request.resultingEmployment = some e.id ∧
      (∀ es, saveRespondEmployment es eff = es ++ [e])) ∧
    eff.request.status = JobStatus.HIRED ∧
    (∃ entry, eff.request.statusHistory = r.statusHistory ++ [entry] ∧
      entry.status = r.status ∧ entry.status ≠ JobStatus.ACCEPTED) := by
  intro eff
  have hmod : canBeModified r = true := by
    rcases hst with h | h <;> simp [canBeModified, h]
  have hnexp : isExpired now r = false := by
    rcases hst with h | h <;> simp [isExpired, h, hexp]
  have heff : eff = respondToJobRequest now userId body r companyUser newEmpId := rfl
  obtain ⟨act, msg, co, rej, dl⟩ := body
  subst hact
  subst hconsent
  unfold respondToJobRequest at heff
  rw [if_neg (by simp [hdrv]), if_neg (by simp [hmod]),
    if_neg (by simp [hnexp])] at heff
  simp only [ne_eq, reduceCtorEq] at heff
  rw [if_neg (by simp)] at heff
  rw [heff]
  refine ⟨rfl, ⟨_, rfl, hdrv.symm, rfl, rfl, rfl, rfl, rfl, rfl, rfl, rfl, rfl,
    rfl, rfl, fun es => rfl⟩, rfl, ⟨_, rfl, rfl, ?_⟩⟩
  rcases hst with h | h <;> simp [h]

/-- Witness for C1: the full hire flow scenario, a pending request with
salary 20000 PER_MONTH and contract 6 Month(s), accepted with consent at
time 500 before expiry at 1000. -/
theorem respond_accept_creates_employment_and_hires_witness :
    sampleRequest.driverId = 20 ∧
    sampleRequest.status = JobStatus.PENDING ∧
    ¬ sampleRequest.expiresAt < 500 ∧
    sampleAcceptBody.action = RespondAction.accept ∧
    sampleAcceptBody.dlConsentGiven = some true ∧
    (let eff := respondToJobRequest 500 20 sampleAcceptBody sampleRequest
      (some sampleCompany) 99
     eff.error = none ∧
     (∃ e, eff.employment = some e ∧
       e.driverId = sampleRequest.driverId ∧
       e.companyId = sampleRequest.companyId ∧
       e.serviceType = sampleRequest.jobDetails.serviceType ∧
       e.vehicleType = sampleRequest.jobDetails.vehicleType ∧
       e.contractDuration = sampleRequest.jobDetails.contractDuration ∧
       e.contractUnit = sampleRequest.jobDetails.contractUnit ∧
       e.salary.amount = sampleRequest.offeredSalary.amount ∧
       e.salary.currency = sampleRequest.offeredSalary.currency ∧
       e.salary.frequency = sampleRequest.offeredSalary.frequency ∧
       e.status = EmpStatus.ACTIVE ∧ e.startDate = 500 ∧
       eff.request.resultingEmployment = some e.id ∧
       (∀ es, saveRespondEmployment es eff = es ++ [e])) ∧
     eff.request.status = JobStatus.HIRED ∧
     (∃ entry, eff.request.statusHistory =
         sampleRequest.statusHistory ++ [entry] ∧
       entry.status = sampleRequest.status ∧
       entry.status ≠ JobStatus.ACCEPTED)) :=
  ⟨rfl, rfl, by decide, rfl, rfl,
    respond_accept_creates_employment_and_hires 500 20 99 sampleAcceptBody
      sampleRequest (some sampleCompany) rfl (Or.inl rfl) (by decide) rfl rfl⟩

/-- C2. For every modifiable, non-expired job request, respondToJobRequest
called by the driver with action accept and dlConsentGiven not equal to true
fails with a Validation error, creates no Employment (the employments
collection is unchanged by the failed call), and leaves the request itself,
hence its status, unchanged. -/
theorem respond_accept_without_consent_fails
    (now userId newEmpId : Nat) (body : RespondBody) (r : JobRequest)
    (companyUser : Option User)
    (hdrv : r.driverId = userId)
    (hst : r.status = JobStatus.PENDING ∨ r.status = JobStatus.VIEWED)
    (hexp : ¬ r.expiresAt < now)
    (hact : body.action = RespondAction.accept)
    (hconsent : body.dlConsentGiven ≠ some true) :
    let eff := respondToJobRequest now userId body r companyUser newEmpId
    eff.error = some (ApiError.validation
      "You must consent to sharing your driving license to accept this offer") ∧
    eff.employment = none ∧
    (∀ es, saveRespondEmployment es eff = es) ∧
    eff.request = r := by
  intro eff
  have hmod : canBeModified r = true := by
    rcases hst with h | h <;> simp [canBeModified, h]
  have hnexp : isExpired now r = false := by
    rcases hst with h | h <;> simp [isExpired, h, hexp]
  have heff : eff = respondToJobRequest now userId body r companyUser newEmpId := rfl
  obtain ⟨act, msg, co, rej, dl⟩ := body
  subst hact
  unfold respondToJobRequest at heff
  rw [if_neg (by simp [hdrv]), if_neg (by simp [hmod]),
    if_neg (by simp [hnexp])] at heff
  dsimp only at heff
  rw [if_pos hconsent] at heff
  rw [heff]
  exact ⟨rfl, rfl, fun es => rfl, rfl⟩

/-- Witness for C2: the pending sample request, accept without consent at
time 500. -/
theorem respond_accept_without_consent_fails_witness :
    sampleRequest.driverId = 20 ∧
    sampleRequest.status = JobStatus.PENDING ∧
    ¬ sampleRequest.expiresAt < 500 ∧
    sampleNoConsentBody.action = RespondAction.accept ∧
    sampleNoConsentBody.dlConsentGiven ≠ some true ∧
    (let eff := respondToJobRequest 500 20 sampleNoConsentBody sampleRequest
      (some sampleCompany) 99
     eff.error = some (ApiError.validation
       "You must consent to sharing your driving license to accept this offer") ∧
     eff.employment = none ∧
     (∀ es, saveRespondEmployment es eff = es) ∧
     eff.request = sampleRequest) :=
  ⟨rfl, rfl, by decide, rfl, by decide,
    respond_accept_without_consent_fails 500 20 99 sampleNoConsentBody
      sampleRequest (some sampleCompany) rfl (Or.inl rfl) (by decide) rfl
      (by decide)⟩

/-- C3. For every job request whose status is in the set REJECTED,
WITHDRAWN, EXPIRED, HIRED, CANCELLED, every respondToJobRequest call and
every withdrawJobRequest call fails, with a Validation error when the caller
is the involved party and a Forbidden error when not, and the request, hence
its status and statusHistory, is unchanged by the failed call. -/
theorem terminal_status_is_closed
    (now userId companyId newEmpId : Nat) (body : RespondBody)
    (r : JobRequest) (companyUser : Option User) (reason : Option String)
    (hterm : r.status = JobStatus.REJECTED ∨ r.status = JobStatus.WITHDRAWN ∨
      r.status = JobStatus.EXPIRED ∨ r.status = JobStatus.HIRED ∨
      r.status = JobStatus.CANCELLED) :
    let re := respondToJobRequest now userId body r companyUser newEmpId
    let we := withdrawJobRequest now companyId reason r
    ((userId = r.driverId →
        re.error = some (ApiError.validation
          "This job request cannot be modified")) ∧
      (userId ≠ r.driverId →
        re.error = some (ApiError.forbidden
          "This job request is not for you")) ∧
      re.request = r ∧ re.employment = none) ∧
    ((companyId = r.companyId →
        we.error = some (ApiError.validation
          "This job request cannot be withdrawn")) ∧
      (companyId ≠ r.companyId →
        we.error = some (ApiError.forbidden
          "This job request does not belong to you")) ∧
      we.request = r) := by
  intro re we
  have hmod : canBeModified r = false := by
    rcases hterm with h | h | h | h | h <;> simp [canBeModified, h]
  have hnpv : ¬ (r.status = JobStatus.PENDING ∨ r.status = JobStatus.VIEWED) := by
    rcases hterm with h | h | h | h | h <;> simp [h]
  refine ⟨?_, ?_⟩
  · by_cases hu : userId = r.driverId
    · have hre : re =
          { error :=
              some (ApiError.validation "This job request cannot be modified"),
            request := r, employment := none, identityUpdate := none } := by
        show respondToJobRequest now userId body r companyUser newEmpId = _
        unfold respondToJobRequest
        rw [if_neg (by simp [hu]), if_pos (by simp [hmod])]
      rw [hre]
      exact ⟨fun _ => rfl, fun h => absurd hu h, rfl, rfl⟩
    · have hre : re =
          { error :=
              some (ApiError.forbidden "This job request is not for you"),
            request := r, employment := none, identityUpdate := none } := by
        show respondToJobRequest now userId body r companyUser newEmpId = _
        unfold respondToJobRequest
        rw [if_pos (fun h => hu h.symm)]
      rw [hre]
      exact ⟨fun h => absurd h hu, fun _ => rfl, rfl, rfl⟩
  · by_cases hc : companyId = r.companyId
    · have hwe : we = { error := some (ApiError.validation
          "This job request cannot be withdrawn"), request := r } := by
        show withdrawJobRequest now companyId reason r = _
        unfold withdrawJobRequest
        rw [if_neg (by simp [hc]), if_pos hnpv]
      rw [hwe]
      exact ⟨fun _ => rfl, fun h => absurd hc h, rfl⟩
    · have hwe : we = { error := some (ApiError.forbidden
          "This job request does not belong to you"), request := r } := by
        show withdrawJobRequest now companyId reason r = _
        unfold withdrawJobRequest
        rw [if_pos (fun h => hc h.symm)]
      rw [hwe]
      exact ⟨fun h => absurd h hc, fun _ => rfl, rfl⟩

/-- Witness for C3: the sample request already in status HIRED, touched by
the involved driver and the owning company. -/
theorem terminal_status_is_closed_witness :
    ({ sampleRequest with status := JobStatus.HIRED } : JobRequest).status =
      JobStatus.HIRED ∧
    (let re := respondToJobRequest 500 20 sampleAcceptBody
      { sampleRequest with status := JobStatus.HIRED } (some sampleCompany) 99
     let we := withdrawJobRequest 500 10 none
      { sampleRequest with status := JobStatus.HIRED }
     ((20 = ({ sampleRequest with status := JobStatus.HIRED } :
          JobRequest).driverId →
        re.error = some (ApiError.validation
          "This job request cannot be modified")) ∧
      (20 ≠ ({ sampleRequest with status := JobStatus.HIRED } :
          JobRequest).driverId →
        re.error = some (ApiError.forbidden
          "This job request is not for you")) ∧
      re.request = { sampleRequest with status := JobStatus.HIRED } ∧
      re.employment = none) ∧
     ((10 = ({ sampleRequest with status := JobStatus.HIRED } :
          JobRequest).companyId →
        we.error = some (ApiError.validation
          "This job request cannot be withdrawn")) ∧
      (10 ≠ ({ sampleRequest with status := JobStatus.HIRED } :
          JobRequest).companyId →
        we.error = some (ApiError.forbidden
          "This job request does not belong to you")) ∧
      we.request = { sampleRequest with status := JobStatus.HIRED })) :=
  ⟨rfl,
    terminal_status_is_closed 500 20 10 99 sampleAcceptBody
      { sampleRequest with status := JobStatus.HIRED } (some sampleCompany)
      none (Or.inr (Or.inr (Or.inr (Or.inl rfl))))⟩

/-- C4. createJobRequest fails with NotFound when the driver is missing from
the Identity Store, with Validation when the fetched user role is not
driver, with Validation when the user carries a companyName that is present
(non-empty, matching the JS truthiness test of the source) and not equal to
Unemployed, with Conflict when a PENDING or VIEWED request of the same
company for the same driver already exists, and otherwise returns a new
JobRequest with status PENDING and a single initial statusHistory entry. -/
theorem createJobRequest_cases
    (now companyId driverId newId : Nat) (jobDetails : JobDetails)
    (offeredSalary : Salary) (expiresAt : Option Nat)
    (driverUser : Option User) (requests : List JobRequest) :
    let result := createJobRequest now companyId driverId jobDetails
      offeredSalary expiresAt driverUser requests newId
    (driverUser = none → result = Except.error (ApiError.notFound "Driver")) ∧
    (∀ du, driverUser = some du →
      (du.role ≠ "driver" →
        result = Except.error (ApiError.validation "User is not a driver")) ∧
      (du.role = "driver" →
        (∀ c, du.companyName = some c → c ≠ "" → c ≠ "Unemployed" →
          result = Except.error
            (ApiError.validation "Driver is currently employed")) ∧
        ((du.companyName = none ∨ du.companyName = some "" ∨
            du.companyName = some "Unemployed") →
          ((∃ r ∈ requests, r.companyId = companyId ∧ r.driverId = driverId ∧
              (r.status = JobStatus.PENDING ∨ r.status = JobStatus.VIEWED)) →
            result = Except.error (ApiError.conflict
              "A pending job request already exists for this driver")) ∧
          ((∀ r ∈ requests, ¬ (r.companyId = companyId ∧ r.driverId = driverId ∧
              (r.status = JobStatus.PENDING ∨ r.status = JobStatus.VIEWED))) →
            ∃ req, result = Except.ok req ∧
              req.status = JobStatus.PENDING ∧
              req.companyId = companyId ∧ req.driverId = driverId ∧
              req.jobDetails = jobDetails ∧
              req.offeredSalary = offeredSalary ∧
              req.statusHistory =
                [{ status := JobStatus.PENDING, changedBy := companyId,
                   changedAt := now, reason := none }])))) := by
  intro result
  have hpend : ∀ rs : List JobRequest,
      hasPendingRequestFrom companyId driverId rs = true ↔
      ∃ r ∈ rs, r.companyId = companyId ∧ r.driverId = driverId ∧
        (r.status = JobStatus.PENDING ∨ r.status = JobStatus.VIEWED) := by
    intro rs
    simp [hasPendingRequestFrom, List.any_eq_true]
  refine ⟨fun h => ?_, fun du hdu => ?_⟩
  · show createJobRequest now companyId driverId jobDetails offeredSalary
      expiresAt driverUser requests newId = _
    rw [h]
    rfl
  · have hres : result = createJobRequest now companyId driverId jobDetails
        offeredSalary expiresAt (some du) requests newId := by
      show createJobRequest now companyId driverId jobDetails offeredSalary
        expiresAt driverUser requests newId = _
      rw [hdu]
    rw [hres]
    unfold createJobRequest
    dsimp only
    by_cases hrole : du.role = "driver"
    · rw [if_neg (by simp [hrole])]
      refine ⟨fun hne => absurd hrole hne, fun _ => ⟨?_, fun hfree => ?_⟩⟩
      · intro c hc hne hnu
        have hcond : strTruthy du.companyName = true ∧
            du.companyName ≠ some "Unemployed" :=
          ⟨by simp [strTruthy, hc, hne], by simp [hc, hnu]⟩
        rw [if_pos hcond]
      · have hncond : ¬ (strTruthy du.companyName = true ∧
            du.companyName ≠ some "Unemployed") := by
          rcases hfree with h | h | h <;> simp [strTruthy, h]
        rw [if_neg hncond]
        constructor
        · intro hex
          rw [if_pos ((hpend requests).2 hex)]
        · intro hnone
          have hany : ¬ hasPendingRequestFrom companyId driverId requests = true := by
            rw [hpend requests]
            rintro ⟨rr, hmem, h1⟩
            exact hnone rr hmem h1
          rw [if_neg hany]
          exact ⟨_, rfl, rfl, rfl, rfl, rfl, rfl, rfl⟩
    · rw [if_pos hrole]
      exact ⟨fun _ => rfl, fun hr => absurd hr hrole⟩

/-- Witness for C4: an unemployed sample driver, an empty request
collection, giving a created PENDING request. -/
theorem createJobRequest_cases_witness :
    sampleDriver.role = "driver" ∧
    sampleDriver.companyName = some "Unemployed" ∧
    (∃ req, createJobRequest 0 10 20 sampleDetails sampleSalary none
        (some sampleDriver) [] 1 = Except.ok req ∧
      req.status = JobStatus.PENDING ∧
      req.companyId = 10 ∧ req.driverId = 20 ∧
      req.jobDetails = sampleDetails ∧
      req.offeredSalary = sampleSalary ∧
      req.statusHistory =
        [{ status := JobStatus.PENDING, changedBy := 10,
           changedAt := 0, reason := none }]) :=
  ⟨rfl, rfl,
    ((((createJobRequest_cases 0 10 20 1 sampleDetails sampleSalary none
        (some sampleDriver) []).2 sampleDriver rfl).2 rfl).2
      (Or.inr (Or.inr rfl))).2 (by simp)⟩

/-- C5. For every job request with status PENDING or VIEWED whose expiresAt
lies in the past, respondToJobRequest called by the driver with any action
saves the request with status EXPIRED, fails with a Validation error instead
of processing the action, and creates no Employment record. -/
theorem respond_expired_marks_and_fails
    (now userId newEmpId : Nat) (body : RespondBody) (r : JobRequest)
    (companyUser : Option User)
    (hdrv : r.driverId = userId)
    (hst : r.status = JobStatus.PENDING ∨ r.status = JobStatus.VIEWED)
    (hexp : r.expiresAt < now) :
    let eff := respondToJobRequest now userId body r companyUser newEmpId
    eff.error = some (ApiError.validation "This job request has expired") ∧
    eff.request = { r with status := JobStatus.EXPIRED } ∧
    eff.request.status = JobStatus.EXPIRED ∧
    eff.employment = none ∧
    (∀ es, saveRespondEmployment es eff = es) := by
  intro eff
  have hmod : canBeModified r = true := by
    rcases hst with h | h <;> simp [canBeModified, h]
  have hisexp : isExpired now r = true := by simp [isExpired, hexp]
  have heff : eff = respondToJobRequest now userId body r companyUser newEmpId := rfl
  unfold respondToJobRequest at heff
  rw [if_neg (by simp [hdrv]), if_neg (by simp [hmod]),
    if_pos (by simp [hisexp])] at heff
  rw [heff]
  exact ⟨rfl, rfl, rfl, rfl, fun es => rfl⟩

/-- Witness for C5: the sample pending request with expiry 1000, touched at
time 2000 with the accept action. -/
theorem respond_expired_marks_and_fails_witness :
    sampleRequest.driverId = 20 ∧
    sampleRequest.status = JobStatus.PENDING ∧
    sampleRequest.expiresAt < 2000 ∧
    (let eff := respondToJobRequest 2000 20 sampleAcceptBody sampleRequest
      (some sampleCompany) 99
     eff.error = some (ApiError.validation "This job request has expired") ∧
     eff.request = { sampleRequest with status := JobStatus.EXPIRED } ∧
     eff.request.status = JobStatus.EXPIRED ∧
     eff.employment = none ∧
     (∀ es, saveRespondEmployment es eff = es)) :=
  ⟨rfl, rfl, by decide,
    respond_expired_marks_and_fails 2000 20 99 sampleAcceptBody sampleRequest
      (some sampleCompany) rfl (Or.inl rfl) (by decide)⟩

/-- C6 evaluated on the code as written: updateDriverAssignmentStatus does
fail with Validation (400) for every value outside UNASSIGNED and ASSIGNED
and with NotFound (404) for every driver with no ACTIVE employment, but in
the success case the handler reports success and echoes the requested value
while the save persists the found document unchanged — the employmentSchema
declares no assignmentStatus path, so no stored employment field is ever
set, against the claim (and the route documentation and success message of
the handler itself). -/
theorem updateDriverAssignmentStatus_never_persists
    (driverId : Nat) (v : String) (es : List Employment) :
    let eff := updateDriverAssignmentStatus driverId v es
    (¬ (v = "UNASSIGNED" ∨ v = "ASSIGNED") →
      (∃ m, eff.error = some (ApiError.validation m) ∧
        ApiError.statusCode (ApiError.validation m) = 400) ∧
      eff.employments = es) ∧
    ((v = "UNASSIGNED" ∨ v = "ASSIGNED") →
      ((∀ e ∈ es, ¬ (e.driverId = driverId ∧ e.status = EmpStatus.ACTIVE)) →
        (∃ m, eff.error = some (ApiError.notFound m) ∧
          ApiError.statusCode (ApiError.notFound m) = 404) ∧
        eff.employments = es) ∧
      (∀ e, findActiveEmployment driverId es = some e →
        eff.error = none ∧
        eff.responseAssignmentStatus = some v ∧
        eff.employments = es)) := by
  intro eff
  constructor
  · intro hbad
    have heq : eff =
        { error := some (ApiError.validation
            "Invalid assignment status. Must be UNASSIGNED or ASSIGNED"),
          employments := es, responseAssignmentStatus := none } := by
      show updateDriverAssignmentStatus driverId v es = _
      unfold updateDriverAssignmentStatus
      rw [if_pos hbad]
    rw [heq]
    exact ⟨⟨_, rfl, rfl⟩, rfl⟩
  · intro hv
    constructor
    · intro hnone
      have hfind : findActiveEmployment driverId es = none := by
        unfold findActiveEmployment
        rw [List.find?_eq_none]
        intro x hx
        simp only [isActiveEmploymentOf, decide_eq_true_eq]
        exact hnone x hx
      have heq : eff =
          { error := some (ApiError.notFound
              "Active employment record for driver"),
            employments := es, responseAssignmentStatus := none } := by
        show updateDriverAssignmentStatus driverId v es = _
        unfold updateDriverAssignmentStatus
        rw [if_neg (by simp [hv]), hfind]
      rw [heq]
      exact ⟨⟨_, rfl, rfl⟩, rfl⟩
    · intro e hfind
      have heq : eff =
          { error := none,
            employments :=
              saveReplacingFirst (isActiveEmploymentOf driverId) e es,
            responseAssignmentStatus := some v } := by
        show updateDriverAssignmentStatus driverId v es = _
        unfold updateDriverAssignmentStatus
        rw [if_neg (by simp [hv]), hfind]
      rw [heq]
      exact ⟨rfl, rfl, saveReplacingFirst_found _ es e hfind⟩

/-- Witness for C6: the sample active employment, asked to become ASSIGNED;
the call succeeds and echoes ASSIGNED but the stored collection is exactly
the one before the call. -/
theorem updateDriverAssignmentStatus_never_persists_witness :
    (("ASSIGNED" : String) = "UNASSIGNED" ∨
      ("ASSIGNED" : String) = "ASSIGNED") ∧
    findActiveEmployment 20 [sampleEmployment] = some sampleEmployment ∧
    (let eff := updateDriverAssignmentStatus 20 "ASSIGNED" [sampleEmployment]
     eff.error = none ∧
     eff.responseAssignmentStatus = some "ASSIGNED" ∧
     eff.employments = [sampleEmployment]) :=
  ⟨Or.inr rfl, by decide,
    ((updateDriverAssignmentStatus_never_persists 20 "ASSIGNED"
      [sampleEmployment]).2 (Or.inr rfl)).2 sampleEmployment (by decide)⟩

/-- C7. terminateEmployment fails with Forbidden when the caller company
differs from the employment company, fails with Validation when the
employment status is not ACTIVE, and otherwise saves the employment with
status TERMINATED, endDate set to now and a termination block with
initiatedBy COMPANY, and issues the Identity Store internal-update call for
the employment driver with body companyName Unemployed. -/
theorem terminateEmployment_spec
    (now companyId : Nat) (reason details : Option String) (rating : Option ℚ)
    (employment : Employment) :
    let eff := terminateEmployment now companyId reason details rating employment
    (employment.companyId ≠ companyId →
      eff.error = some (ApiError.forbidden "Access denied") ∧
      eff.employment = employment ∧ eff.identityUpdate = none) ∧
    (employment.companyId = companyId → employment.status ≠ EmpStatus.ACTIVE →
      eff.error = some (ApiError.validation "Employment is already terminated") ∧
      eff.employment = employment ∧ eff.identityUpdate = none) ∧
    (employment.companyId = companyId → employment.status = EmpStatus.ACTIVE →
      eff.error = none ∧
      eff.employment.status = EmpStatus.TERMINATED ∧
      eff.employment.endDate = some now ∧
      (∃ t, eff.employment.termination = some t ∧
        t.initiatedBy = "COMPANY" ∧ t.reason = reason ∧ t.terminatedAt = now) ∧
      (∃ b, eff.identityUpdate = some (employment.driverId, b) ∧
        b.companyName = some "Unemployed")) := by
  intro eff
  refine ⟨fun hc => ?_, fun hc hst => ?_, fun hc hst => ?_⟩
  · have heq : eff =
        { error := some (ApiError.forbidden "Access denied"),
          employment := employment, identityUpdate := none } := by
      show terminateEmployment now companyId reason details rating employment = _
      unfold terminateEmployment
      rw [if_pos hc]
    rw [heq]
    exact ⟨rfl, rfl, rfl⟩
  · have heq : eff =
        { error := some (ApiError.validation "Employment is already terminated"),
          employment := employment, identityUpdate := none } := by
      show terminateEmployment now companyId reason details rating employment = _
      unfold terminateEmployment
      rw [if_neg (by simp [hc]), if_pos hst]
    rw [heq]
    exact ⟨rfl, rfl, rfl⟩
  · have heq : eff =
        { error := none,
          employment :=
            { employment with
              status := EmpStatus.TERMINATED
              endDate := some now
              termination := some
                { reason := reason, details := details
                  initiatedBy := "COMPANY", terminatedAt := now } },
          identityUpdate := some (employment.driverId,
            ({ companyName := some "Unemployed", assignmentStatus := none } :
              InternalUpdateBody)) } := by
      show terminateEmployment now companyId reason details rating employment = _
      unfold terminateEmployment
      rw [if_neg (by simp [hc]), if_neg (by simp [hst])]
    rw [heq]
    exact ⟨rfl, rfl, rfl, ⟨_, rfl, rfl, rfl, rfl⟩, ⟨_, rfl, rfl⟩⟩

/-- Witness for C7: the active sample employment terminated by its owning
company at time 900 with reason RESIGNATION. -/
theorem terminateEmployment_spec_witness :
    sampleEmployment.companyId = 10 ∧
    sampleEmployment.status = EmpStatus.ACTIVE ∧
    (let eff := terminateEmployment 900 10 (some "RESIGNATION") none none
      sampleEmployment
     eff.error = none ∧
     eff.employment.status = EmpStatus.TERMINATED ∧
     eff.employment.endDate = some 900 ∧
     (∃ t, eff.employment.termination = some t ∧
       t.initiatedBy = "COMPANY" ∧ t.reason = some "RESIGNATION" ∧
       t.terminatedAt = 900) ∧
     (∃ b, eff.identityUpdate = some (sampleEmployment.driverId, b) ∧
       b.companyName = some "Unemployed")) :=
  ⟨rfl, rfl,
    ((terminateEmployment_spec 900 10 (some "RESIGNATION") none none
      sampleEmployment).2.2 rfl rfl)⟩

/-- C8 counterexample. The internal-update handler destructures only
companyName from the body: on a concrete user with stored assignmentStatus
UNASSIGNED and a body providing assignmentStatus ASSIGNED, the call succeeds
but the saved user still carries UNASSIGNED, so the claim that every
provided field (including assignmentStatus) is set on the stored user is
false. -/
theorem internal_update_assignment_counterexample :
    internalUpdateRoute
      { companyName := some "Acme Fleet", assignmentStatus := some "ASSIGNED" }
      (some sampleDriver) =
      Except.ok { sampleDriver with companyName := some "Acme Fleet" } ∧
    ({ companyName := some "Acme Fleet", assignmentStatus := some "ASSIGNED" } :
      InternalUpdateBody).assignmentStatus = some "ASSIGNED" ∧
    ¬ ({ sampleDriver with companyName := some "Acme Fleet" } :
      User).assignmentStatus = some "ASSIGNED" := by
  refine ⟨rfl, rfl, by decide⟩

/-- C8 amended. The internal-update handler sets companyName on the stored
user when the body provides it and leaves every other user field, including
assignmentStatus, unchanged (the assignmentStatus value of the body is
ignored); the operation is idempotent. -/
theorem internal_update_sets_companyName_only
    (body : InternalUpdateBody) (u : User) :
    internalUpdateRoute body (some u) =
      Except.ok (internalUpdateUser body u) ∧
    (∀ c, body.companyName = some c →
      (internalUpdateUser body u).companyName = some c) ∧
    (body.companyName = none →
      (internalUpdateUser body u).companyName = u.companyName) ∧
    (internalUpdateUser body u).assignmentStatus = u.assignmentStatus ∧
    (internalUpdateUser body u).id = u.id ∧
    (internalUpdateUser body u).email = u.email ∧
    (internalUpdateUser body u).role = u.role ∧
    (internalUpdateUser body u).firstName = u.firstName ∧
    (internalUpdateUser body u).lastName = u.lastName ∧
    internalUpdateUser body (internalUpdateUser body u) =
      internalUpdateUser body u := by
  obtain ⟨cn, asg⟩ := body
  cases cn <;>
    simp [internalUpdateUser, internalUpdateRoute]

/-- Witness for C8 amended: a body carrying both companyName and
assignmentStatus applied to the sample driver. -/
theorem internal_update_sets_companyName_only_witness :
    internalUpdateRoute sampleUpdateBody (some sampleDriver) =
      Except.ok (internalUpdateUser sampleUpdateBody sampleDriver) ∧
    (∀ c, sampleUpdateBody.companyName = some c →
      (internalUpdateUser sampleUpdateBody sampleDriver).companyName =
        some c) ∧
    (sampleUpdateBody.companyName = none →
      (internalUpdateUser sampleUpdateBody sampleDriver).companyName =
        sampleDriver.companyName) ∧
    (internalUpdateUser sampleUpdateBody sampleDriver).assignmentStatus =
      sampleDriver.assignmentStatus ∧
    (internalUpdateUser sampleUpdateBody sampleDriver).id = sampleDriver.id ∧
    (internalUpdateUser sampleUpdateBody sampleDriver).email =
      sampleDriver.email ∧
    (internalUpdateUser sampleUpdateBody sampleDriver).role =
      sampleDriver.role ∧
    (internalUpdateUser sampleUpdateBody sampleDriver).firstName =
      sampleDriver.firstName ∧
    (internalUpdateUser sampleUpdateBody sampleDriver).lastName =
      sampleDriver.lastName ∧
    internalUpdateUser sampleUpdateBody
        (internalUpdateUser sampleUpdateBody sampleDriver) =
      internalUpdateUser sampleUpdateBody sampleDriver :=
  internal_update_sets_companyName_only sampleUpdateBody sampleDriver

/-- C9. calculateAggregateRatings returns, for every driver, averageRating
equal to the mean of overallRating over all approved ratings of that driver
rounded to one decimal place (a multiple of one tenth within one twentieth
of the exact mean), totalRatings equal to the number of those ratings, and
per-category breakdown means with zero substituted for categories with no
values; with no approved ratings the aggregate is all zeros. -/
theorem calculateAggregateRatings_spec (driverId : Nat)
    (rs : List DriverRating) :
    let matched := approvedRatingsFor driverId rs
    let agg := calculateAggregateRatings driverId rs
    (matched = [] →
      agg = { averageRating := 0, totalRatings := 0
              breakdown :=
                { safety := 0, punctuality := 0, professionalism := 0
                  vehicleCare := 0, communication := 0 } }) ∧
    (matched ≠ [] →
      agg.totalRatings = matched.length ∧
      (∃ k : ℤ, agg.averageRating = k / 10) ∧
      |agg.averageRating -
        listAvg (matched.map DriverRating.overallRating)| ≤ 1 / 20 ∧
      ((matched.filterMap (fun r => r.categoryRatings.safety) = [] →
          agg.breakdown.safety = 0) ∧
        (matched.filterMap (fun r => r.categoryRatings.safety) ≠ [] →
          (∃ k : ℤ, agg.breakdown.safety = k / 10) ∧
          |agg.breakdown.safety - listAvg
            (matched.filterMap (fun r => r.categoryRatings.safety))| ≤ 1 / 20)) ∧
      ((matched.filterMap (fun r => r.categoryRatings.punctuality) = [] →
          agg.breakdown.punctuality = 0) ∧
        (matched.filterMap (fun r => r.categoryRatings.punctuality) ≠ [] →
          (∃ k : ℤ, agg.breakdown.punctuality = k / 10) ∧
          |agg.breakdown.punctuality - listAvg
            (matched.filterMap
              (fun r => r.categoryRatings.punctuality))| ≤ 1 / 20)) ∧
      ((matched.filterMap (fun r => r.categoryRatings.professionalism) = [] →
          agg.breakdown.professionalism = 0) ∧
        (matched.filterMap (fun r => r.categoryRatings.professionalism) ≠ [] →
          (∃ k : ℤ, agg.breakdown.professionalism = k / 10) ∧
          |agg.breakdown.professionalism - listAvg
            (matched.filterMap
              (fun r => r.categoryRatings.professionalism))| ≤ 1 / 20)) ∧
      ((matched.filterMap (fun r => r.categoryRatings.vehicleCare) = [] →
          agg.breakdown.vehicleCare = 0) ∧
        (matched.filterMap (fun r => r.categoryRatings.vehicleCare) ≠ [] →
          (∃ k : ℤ, agg.breakdown.vehicleCare = k / 10) ∧
          |agg.breakdown.vehicleCare - listAvg
            (matched.filterMap
              (fun r => r.categoryRatings.vehicleCare))| ≤ 1 / 20)) ∧
      ((matched.filterMap (fun r => r.categoryRatings.communication) = [] →
          agg.breakdown.communication = 0) ∧
        (matched.filterMap (fun r => r.categoryRatings.communication) ≠ [] →
          (∃ k : ℤ, agg.breakdown.communication = k / 10) ∧
          |agg.breakdown.communication - listAvg
            (matched.filterMap
              (fun r => r.categoryRatings.communication))| ≤ 1 / 20))) := by
  intro matched agg
  constructor
  · intro h
    have hemp : (approvedRatingsFor driverId rs).isEmpty = true := by
      rw [show matched = approvedRatingsFor driverId rs from rfl] at h
      rw [h]
      rfl
    show calculateAggregateRatings driverId rs = _
    unfold calculateAggregateRatings
    rw [if_pos hemp]
  · intro h
    have hne : (approvedRatingsFor driverId rs).isEmpty = false := by
      rw [show matched = approvedRatingsFor driverId rs from rfl] at h
      cases hl : approvedRatingsFor driverId rs with
      | nil => exact absurd hl h
      | cons a l => rfl
    have hagg : agg =
        { averageRating := round1 (listAvg
            ((approvedRatingsFor driverId rs).map DriverRating.overallRating))
          totalRatings := (approvedRatingsFor driverId rs).length
          breakdown :=
            { safety := breakdownField (approvedRatingsFor driverId rs)
                (fun r => r.categoryRatings.safety)
              punctuality := breakdownField (approvedRatingsFor driverId rs)
                (fun r => r.categoryRatings.punctuality)
              professionalism := breakdownField (approvedRatingsFor driverId rs)
                (fun r => r.categoryRatings.professionalism)
              vehicleCare := breakdownField (approvedRatingsFor driverId rs)
                (fun r => r.categoryRatings.vehicleCare)
              communication := breakdownField (approvedRatingsFor driverId rs)
                (fun r => r.categoryRatings.communication) } } := by
      show calculateAggregateRatings driverId rs = _
      unfold calculateAggregateRatings
      rw [if_neg (by rw [hne]; exact Bool.false_ne_true)]
    rw [hagg]
    refine ⟨rfl, (round1_near _).1, (round1_near _).2, ?_, ?_, ?_, ?_, ?_⟩ <;>
      exact ⟨fun hcat => breakdownField_empty _ _ hcat,
        fun hcat => breakdownField_near _ _ hcat⟩

/-- Witness for C9: ratings 5, 4 and 3 yield averageRating exactly 4 with
three total ratings, and an empty collection yields the all-zero
aggregate. -/
theorem calculateAggregateRatings_spec_witness :
    approvedRatingsFor 20 sampleRatings ≠ [] ∧
    (calculateAggregateRatings 20 sampleRatings).averageRating = 4 ∧
    (calculateAggregateRatings 20 sampleRatings).totalRatings = 3 ∧
    calculateAggregateRatings 20 [] =
      { averageRating := 0, totalRatings := 0
        breakdown :=
          { safety := 0, punctuality := 0, professionalism := 0
            vehicleCare := 0, communication := 0 } } ∧
    ((calculateAggregateRatings 20 sampleRatings).totalRatings =
        (approvedRatingsFor 20 sampleRatings).length ∧
      (∃ k : ℤ, (calculateAggregateRatings 20 sampleRatings).averageRating =
        k / 10) ∧
      |(calculateAggregateRatings 20 sampleRatings).averageRating -
        listAvg ((approvedRatingsFor 20 sampleRatings).map
          DriverRating.overallRating)| ≤ 1 / 20) :=
  ⟨by decide, by
      have hm : approvedRatingsFor 20 sampleRatings = sampleRatings := by decide
      show (calculateAggregateRatings 20 sampleRatings).averageRating = 4
      unfold calculateAggregateRatings
      rw [hm]
      norm_num [sampleRatings, listAvg, round1, jsRound, List.isEmpty]
      , by decide, by decide,
    by
      have h := (calculateAggregateRatings_spec 20 sampleRatings).2 (by decide)
      exact ⟨h.1, h.2.1, h.2.2.1⟩⟩

/-- C10. Every transition made through updateStatus appends exactly one
statusHistory entry carrying the pre-transition status (the status being
left, never the new status when they differ) and increments viewCount by
exactly one; the EXPIRED transition taken inside respondToJobRequest on an
expired request assigns the status directly and appends no statusHistory
entry and does not touch viewCount. -/
theorem updateStatus_records_previous_status
    (r : JobRequest) (newStatus : JobStatus) (changedBy now : Nat)
    (reason : String) :
    (updateStatus r newStatus changedBy now reason).statusHistory =
      r.statusHistory ++
        [{ status := r.status, changedBy := changedBy, changedAt := now,
           reason := some reason }] ∧
    (updateStatus r newStatus changedBy now reason).viewCount =
      r.viewCount + 1 ∧
    (newStatus ≠ r.status →
      ∀ entry,
        (updateStatus r newStatus changedBy now reason).statusHistory =
          r.statusHistory ++ [entry] →
        entry.status ≠ newStatus) ∧
    (∀ (now2 userId : Nat) (body : RespondBody) (companyUser : Option User)
        (newEmpId : Nat),
      r.driverId = userId →
      (r.status = JobStatus.PENDING ∨ r.status = JobStatus.VIEWED) →
      r.expiresAt < now2 →
      (respondToJobRequest now2 userId body r companyUser
          newEmpId).request.statusHistory = r.statusHistory ∧
      (respondToJobRequest now2 userId body r companyUser
          newEmpId).request.viewCount = r.viewCount ∧
      (respondToJobRequest now2 userId body r companyUser
          newEmpId).request.status = JobStatus.EXPIRED) := by
  refine ⟨rfl, rfl, ?_, ?_⟩
  · intro hneq entry hE
    have h1 : ([{ status := r.status, changedBy := changedBy,
                  changedAt := now, reason := some reason }] :
        List StatusHistoryEntry) = [entry] :=
      List.append_cancel_left hE
    have h2 : ({ status := r.status, changedBy := changedBy,
                 changedAt := now, reason := some reason } :
        StatusHistoryEntry) = entry := by
      simpa using h1
    rw [← h2]
    exact Ne.symm hneq
  · intro now2 userId body companyUser newEmpId hdrv hst hexp
    have hmod : canBeModified r = true := by
      rcases hst with h | h <;> simp [canBeModified, h]
    have hisexp : isExpired now2 r = true := by simp [isExpired, hexp]
    have heff : respondToJobRequest now2 userId body r companyUser newEmpId =
        { error := some (ApiError.validation "This job request has expired"),
          request := { r with status := JobStatus.EXPIRED },
          employment := none, identityUpdate := none } := by
      unfold respondToJobRequest
      rw [if_neg (by simp [hdrv]), if_neg (by simp [hmod]),
        if_pos (by simp [hisexp])]
    rw [heff]
    exact ⟨rfl, rfl, rfl⟩

/-- Witness for C10: the first view transition of the sample pending request
at time 100, and the expiry path of the same request at time 2000. -/
theorem updateStatus_records_previous_status_witness :
    (updateStatus sampleRequest JobStatus.VIEWED 20 100
        "Viewed by driver").statusHistory =
      sampleRequest.statusHistory ++
        [{ status := JobStatus.PENDING, changedBy := 20, changedAt := 100,
           reason := some "Viewed by driver" }] ∧
    (updateStatus sampleRequest JobStatus.VIEWED 20 100
        "Viewed by driver").viewCount = sampleRequest.viewCount + 1 ∧
    JobStatus.VIEWED ≠ sampleRequest.status ∧
    sampleRequest.expiresAt < 2000 ∧
    (respondToJobRequest 2000 20 sampleAcceptBody sampleRequest
        (some sampleCompany) 99).request.statusHistory =
      sampleRequest.statusHistory ∧
    (respondToJobRequest 2000 20 sampleAcceptBody sampleRequest
        (some sampleCompany) 99).request.viewCount =
      sampleRequest.viewCount ∧
    (respondToJobRequest 2000 20 sampleAcceptBody sampleRequest
        (some sampleCompany) 99).request.status = JobStatus.EXPIRED :=
  ⟨(updateStatus_records_previous_status sampleRequest JobStatus.VIEWED 20 100
      "Viewed by driver").1,
   (updateStatus_records_previous_status sampleRequest JobStatus.VIEWED 20 100
      "Viewed by driver").2.1,
   by decide, by decide,
   ((updateStatus_records_previous_status sampleRequest JobStatus.VIEWED 20 100
      "Viewed by driver").2.2.2 2000 20 sampleAcceptBody (some sampleCompany)
      99 rfl (Or.inl rfl) (by decide)).1,
   ((updateStatus_records_previous_status sampleRequest JobStatus.VIEWED 20 100
      "Viewed by driver").2.2.2 2000 20 sampleAcceptBody (some sampleCompany)
      99 rfl (Or.inl rfl) (by decide)).2.1,
   ((updateStatus_records_previous_status sampleRequest JobStatus.VIEWED 20 100
      "Viewed by driver").2.2.2 2000 20 sampleAcceptBody (some sampleCompany)
      99 rfl (Or.inl rfl) (by decide)).2.2⟩

end Mobitrak
